import Mathlib

/-!
Shallow embedding of the Beurer PO60 pulse-oximeter notification decoder
(`src/code.py`).

The embedded core is:
* `parse` (lines 34-42) — the Validator/Decoder: checks the length/marker
  guard and extracts sequence id, timestamp and SpO2 statistics via bit masks;
* `extract_time` (lines 44-50) — timestamp field extraction from the
  six-byte slice `data[8:14]`;
* `handle_notification` (lines 52-72) — per-buffer processing over the
  `measurements` list: appends a decoded record for marker packets, and for
  non-marker buffers of length ≥ 3 writes the pulse-rate triple into the
  most recently appended record (`measurements[-1]['pr'] = ...`);
* `main_report` (lines 83-87) — the Selector: `max(measurements,
  key=lambda x: x['end_time'])` over a non-empty session, or the
  "No measurements received" outcome on an empty one.

Raw byte buffers are `List Nat` (each element a byte value 0-255; the code
only ever masks bytes, so no modular arithmetic beyond `&&&` occurs).
Python exceptions are modelled with `Except PyError`; list indexing
`data[i]` that can raise is `pyGet`, and indexing that is guarded by a
length check in the source is `List.getD` (the default is unreachable
under the guard).  The diagnostic side channel (`logging`, `raw_data`) is
modelled as a list of classified `Event`s emitted per buffer, matching the
`logging.warning` / `logging.info` calls with protocol content; the pure
debug echo of the raw bytes (line 54) carries no protocol state and is
omitted.
-/

namespace PO60

/-- Python exception outcomes reachable in the embedded core. -/
inductive PyError : Type
| indexError
| typeError
deriving DecidableEq

/-- Timestamp record produced by `extract_time` (a Python dict with keys
`year`..`second`). -/
structure Timestamp : Type where
  year : Nat
  month : Nat
  day : Nat
  hour : Nat
  minute : Nat
  second : Nat
deriving DecidableEq

/-- A max/min/avg triple (the shape of both the `spo2` and the `pr` dicts). -/
structure Stats : Type where
  max : Nat
  min : Nat
  avg : Nat
deriving DecidableEq

/-- One parsed measurement: the dict built by `parse`, plus the optional
`pr` key that `handle_notification` may add later. -/
structure Measurement : Type where
  packet : Nat
  end_time : Timestamp
  spo2 : Stats
  pr : Option Stats
deriving DecidableEq

/-- Classified warning/info events emitted by the core (the
`logging.warning` / `logging.info` calls carrying protocol information). -/
inductive Event : Type
| malformedPacket
| pulseRateUpdated
| prIncomplete
deriving DecidableEq

/-- `MIN_PACKET_LENGTH = 23` (line 32). -/
def MIN_PACKET_LENGTH : Nat := 23

/-- `extract_time(data)` (lines 44-50): masks the six bytes of the slice
`data[8:14]` into a timestamp.  Indices 0-5 are always in bounds when the
caller's length guard (≥ 23) holds, so `getD` is exact there. -/
def extract_time (d : List Nat) : Timestamp :=
  { year := 2000 + (d.getD 0 0 &&& 0x7F)
    month := d.getD 1 0 &&& 0x0F
    day := d.getD 2 0 &&& 0x1F
    hour := d.getD 3 0 &&& 0x1F
    minute := d.getD 4 0 &&& 0x3F
    second := d.getD 5 0 &&& 0x3F }

/-- `parse(data)` (lines 34-42): `None` when `len(data) < MIN_PACKET_LENGTH
or data[0] != 0xe9` (the `or` short-circuits, so `data[0]` is never reached
on a too-short buffer), otherwise the decoded measurement dict with no `pr`
key.  `data[8:14]` is `(data.drop 8).take 6` and `data[i] & m` is
`data.getD i 0 &&& m`; every index read in the success branch is below 23,
hence in bounds under the guard. -/
def parse (data : List Nat) : Option Measurement :=
  if data.length < MIN_PACKET_LENGTH ∨ data.getD 0 0 ≠ 0xE9 then
    none
  else
    some
      { packet := data.getD 1 0 &&& 0x0F
        end_time := extract_time ((data.drop 8).take 6)
        spo2 :=
          { max := data.getD 17 0 &&& 0x7F
            min := data.getD 18 0 &&& 0x7F
            avg := data.getD 19 0 &&& 0x7F }
        pr := none }

/-- Python list indexing `xs[i]`: the value, or an `IndexError`. -/
def pyGet (xs : List Nat) (i : Nat) : Except PyError Nat :=
  match xs.get? i with
  | some v => .ok v
  | none => .error .indexError

/-- The pulse-rate dict built at lines 65-69 from the first three bytes of
a notification: `{max: data[0]&0x7F, min: data[1]&0x7F, avg: data[2]&0x7F}`. -/
def pr_values (data : List Nat) : Stats :=
  { max := data.getD 0 0 &&& 0x7F
    min := data.getD 1 0 &&& 0x7F
    avg := data.getD 2 0 &&& 0x7F }

/-- `measurements[-1]['pr'] = p`: replace the last element's `pr` field
(unconditionally, whether or not it was already set). -/
def setLastPr : List Measurement → Stats → List Measurement
| [], _ => []
| [m], p => [{ m with pr := some p }]
| m :: m2 :: rest, p => m :: setLastPr (m2 :: rest) p

/-- `handle_notification(sender, data)` (lines 52-72), as a transformer of
the `measurements` list that also returns the classified events emitted for
this buffer.

* `data[0] == 0xe9` (line 58) is evaluated on every buffer with no length
  guard: on the empty buffer it raises `IndexError`.
* Marker branch: append `parse data` when it succeeds; when it fails,
  `parse` has logged the "Invalid or incomplete data packet" warning
  (`malformedPacket`) and nothing is appended.
* `elif measurements and len(data) >= 3` (line 62): write `pr_values data`
  into the last record.  The `try`/`except IndexError` around the dict
  construction (lines 64-72) is modelled by matching on the three `pyGet`
  reads: if any raised, the state would be unchanged and the "PR values
  incomplete" warning (`prIncomplete`) emitted.
* Any other buffer falls through the `if`/`elif` chain unchanged and
  silently. -/
def handle_notification (ms : List Measurement) (data : List Nat) :
    Except PyError (List Measurement × List Event) :=
  match data with
  | [] => .error .indexError
  | d0 :: _ =>
    if d0 = 0xE9 then
      match parse data with
      | some m => .ok (ms ++ [m], [])
      | none => .ok (ms, [.malformedPacket])
    else if ms ≠ [] ∧ 3 ≤ data.length then
      match pyGet data 0, pyGet data 1, pyGet data 2 with
      | .ok a, .ok b, .ok c =>
          .ok (setLastPr ms { max := a &&& 0x7F, min := b &&& 0x7F, avg := c &&& 0x7F },
               [.pulseRateUpdated])
      | _, _, _ => .ok (ms, [.prIncomplete])
    else
      .ok (ms, [])

/-- Fold `handle_notification` over a stream of buffers (the transport
delivers buffers one at a time, in order); collects all emitted events.
An uncaught exception aborts the stream as it would abort the callback. -/
def processStream (ms : List Measurement) :
    List (List Nat) → Except PyError (List Measurement × List Event)
| [] => .ok (ms, [])
| b :: rest =>
  match handle_notification ms b with
  | .error e => .error e
  | .ok (ms2, evs) =>
    match processStream ms2 rest with
    | .error e => .error e
    | .ok (ms3, evs2) => .ok (ms3, evs ++ evs2)

/-- Python 3 ordering comparison of two dicts: `d1 > d2` raises
`TypeError` (`dict` implements equality but no order).  This is the
comparison `max` performs on the `end_time` dicts selected by the key
function at line 84. -/
def dictGt (_d1 _d2 : Timestamp) : Except PyError Bool :=
  .error .typeError

/-- Python's builtin `max(first :: rest, key=lambda x: x['end_time'])`:
scan left to right keeping the current maximum, replacing it whenever the
next item's key compares greater.  The first comparison already determines
the outcome here, but the scan is modelled in full. -/
def pyMaxByEndTime (best : Measurement) :
    List Measurement → Except PyError Measurement
| [] => .ok best
| m :: rest =>
  match dictGt m.end_time best.end_time with
  | .error e => .error e
  | .ok g => if g then pyMaxByEndTime m rest else pyMaxByEndTime best rest

/-- The Selector's outcome: the "no data" report or the selected record. -/
inductive Report : Type
| noMeasurements
| latest (m : Measurement)
deriving DecidableEq

/-- The reporting tail of `main` (lines 83-87): on a non-empty session run
`max(measurements, key=lambda x: x['end_time'])` and report the latest
record; on an empty session report "No measurements received". -/
def main_report (ms : List Measurement) : Except PyError Report :=
  match ms with
  | [] => .ok .noMeasurements
  | m :: rest =>
    match pyMaxByEndTime m rest with
    | .ok l => .ok (.latest l)
    | .error e => .error e

/-- The §8 synthetic valid buffer: length 23, marker byte `0xE9`,
`buffer[1]=0x01`, `buffer[8..14)=[0x19,0x03,0x0A,0x0C,0x1E,0x2D]`,
`buffer[17..20)=[0x62,0x5A,0x5E]`, all other bytes zero. -/
def validBuf : List Nat :=
  [0xE9, 0x01, 0, 0, 0, 0, 0, 0,
   0x19, 0x03, 0x0A, 0x0C, 0x1E, 0x2D, 0, 0, 0,
   0x62, 0x5A, 0x5E, 0, 0, 0]

/-- The record `parse validBuf` decodes to. -/
def recValid : Measurement :=
  { packet := 1
    end_time := { year := 2025, month := 3, day := 10, hour := 12, minute := 30, second := 45 }
    spo2 := { max := 98, min := 90, avg := 94 }
    pr := none }

/-- A record whose pulse rate is already attached (used to exercise the
overwrite behaviour). -/
def mPreset : Measurement :=
  { recValid with pr := some { max := 1, min := 2, avg := 3 } }

/-- Erase the optional `pr` field; two records agree under `erasePr`
exactly when they differ at most in their pulse rate. -/
def erasePr (m : Measurement) : Measurement :=
  { m with pr := none }

/-- `recValid` after the pulse-rate triple `[0x50, 0x40, 0x46]` has been
attached. -/
def recWithPr : Measurement :=
  { recValid with pr := some { max := 80, min := 64, avg := 70 } }

/-- `recValid` after its pulse rate has been overwritten by the later
triple `[0x10, 0x11, 0x12]`. -/
def recOverwritten : Measurement :=
  { recValid with pr := some { max := 16, min := 17, avg := 18 } }

/-- A record whose timestamp (2024-01-01 00:00:00) is lexicographically
earlier than `recValid`'s (2025-03-10 12:30:45). -/
def recEarlier : Measurement :=
  { recValid with
    end_time := { year := 2024, month := 1, day := 1, hour := 0, minute := 0, second := 0 } }

/-! ### Helper lemmas -/

theorem setLastPr_length (ms : List Measurement) (p : Stats) :
    (setLastPr ms p).length = ms.length := by
  induction ms with
  | nil => rfl
  | cons m rest ih =>
    cases rest with
    | nil => rfl
    | cons m2 rest2 => simp only [setLastPr, List.length_cons] at ih ⊢; omega

theorem setLastPr_take_pred (ms : List Measurement) (p : Stats) :
    (setLastPr ms p).take (ms.length - 1) = ms.take (ms.length - 1) := by
  induction ms with
  | nil => rfl
  | cons m rest ih =>
    cases rest with
    | nil => rfl
    | cons m2 rest2 =>
      simp only [setLastPr, List.length_cons, Nat.add_sub_cancel, List.take_succ_cons] at ih ⊢
      rw [ih]

theorem setLastPr_map_erasePr (ms : List Measurement) (p : Stats) :
    (setLastPr ms p).map erasePr = ms.map erasePr := by
  induction ms with
  | nil => rfl
  | cons m rest ih =>
    cases rest with
    | nil => rfl
    | cons m2 rest2 =>
      simp only [setLastPr, List.map_cons] at ih ⊢
      rw [ih]

theorem setLastPr_get_last (ms : List Measurement) (p : Stats) (a : Measurement)
    (ha : ms.get? (ms.length - 1) = some a) :
    (setLastPr ms p).get? (ms.length - 1) = some { a with pr := some p } := by
  induction ms with
  | nil => simp at ha
  | cons m rest ih =>
    cases rest with
    | nil =>
      simp only [setLastPr, List.length_cons, List.length_nil, Nat.add_sub_cancel,
        List.get?_cons_zero, Option.some.injEq] at ha ⊢
      rw [← ha]
    | cons m2 rest2 =>
      simp only [List.length_cons, Nat.add_sub_cancel, List.get?_cons_succ] at ha ⊢
      simp only [List.length_cons, Nat.add_sub_cancel] at ih
      exact ih ha

/-- Collapsed form of `handle_notification` on a non-empty buffer: the
three guarded byte reads in the pulse-rate branch always succeed when the
length guard holds, so the `except IndexError` arm never fires (lines
71-72 are unreachable given the guard at line 62). -/
theorem handle_notification_cons (ms : List Measurement) (d0 : Nat) (rest : List Nat) :
    handle_notification ms (d0 :: rest) =
      if d0 = 0xE9 then
        match parse (d0 :: rest) with
        | some m => .ok (ms ++ [m], [])
        | none => .ok (ms, [.malformedPacket])
      else if ms ≠ [] ∧ 3 ≤ (d0 :: rest).length then
        .ok (setLastPr ms (pr_values (d0 :: rest)), [.pulseRateUpdated])
      else
        .ok (ms, []) := by
  by_cases h1 : d0 = 0xE9
  · simp only [handle_notification, if_pos h1]
  · by_cases h2 : ms ≠ [] ∧ 3 ≤ (d0 :: rest).length
    · obtain ⟨h2a, h2b⟩ := h2
      simp only [List.length_cons] at h2b
      cases rest with
      | nil => simp at h2b
      | cons r1 rest1 =>
        cases rest1 with
        | nil => simp at h2b
        | cons r2 rest2 =>
          have hc : ms ≠ [] ∧ 3 ≤ (d0 :: r1 :: r2 :: rest2).length :=
            ⟨h2a, by simp only [List.length_cons]; omega⟩
          simp only [handle_notification, if_neg h1, if_pos hc]
          rfl
    · simp only [handle_notification, if_neg h1, if_neg h2]

/-! ### Claim theorems -/

/-- C1, counterexample: the claim fails on the empty buffer.  Line 58
evaluates `data[0]` with no length guard, so processing the empty buffer
raises `IndexError` instead of absorbing the input; the stream callback is
terminated by an uncaught exception. -/
theorem C1_counterexample :
    handle_notification [] [] = .error .indexError := rfl

/-- C1 (amended): for every session state and every buffer of length ≥ 1,
`handle_notification` completes without raising; only the empty buffer is
not absorbed. -/
theorem C1_amended (ms : List Measurement) (data : List Nat) (h : data ≠ []) :
    (handle_notification ms data).isOk = true := by
  cases data with
  | nil => exact absurd rfl h
  | cons d0 rest =>
    rw [handle_notification_cons]
    by_cases h1 : d0 = 0xE9
    · rw [if_pos h1]
      cases parse (d0 :: rest) <;> rfl
    · rw [if_neg h1]
      by_cases h2 : ms ≠ [] ∧ 3 ≤ (d0 :: rest).length
      · rw [if_pos h2]; rfl
      · rw [if_neg h2]; rfl

/-- C1 witness: the amended totality theorem at the concrete one-byte
buffer `[0x00]` and the empty session. -/
theorem C1_amended_witness :
    ([0x00] : List Nat) ≠ [] ∧ (handle_notification [] [0x00]).isOk = true :=
  ⟨by decide, C1_amended [] [0x00] (by decide)⟩

/-- C2, code evaluation at the failing input: with two records in the
session — `recEarlier` (timestamp 2024-01-01 00:00:00) inserted before
`recValid` (timestamp 2025-03-10 12:30:45) — the Selector
`max(measurements, key=lambda x: x['end_time'])` compares the two
`end_time` dicts with `>` and raises `TypeError` (Python 3 dicts are
unordered), instead of returning the record with the greater timestamp as
the claim states. -/
theorem C2_selector_raises :
    main_report [recEarlier, recValid] = .error .typeError := rfl

/-- C4, counterexample: pulse rate is not write-once.  After the stream
`[validBuf, [0x50,0x40,0x46]]` the single record's `pr` is `{80,64,70}`;
processing one more non-marker buffer `[0x10,0x11,0x12]` overwrites it to
`{16,17,18}`, so a subsequently processed non-marker buffer does modify an
already-set `pr` field. -/
theorem C4_counterexample :
    processStream [] [validBuf, [0x50, 0x40, 0x46]] =
      .ok ([recWithPr], [.pulseRateUpdated]) ∧
    processStream [] [validBuf, [0x50, 0x40, 0x46], [0x10, 0x11, 0x12]] =
      .ok ([recOverwritten], [.pulseRateUpdated, .pulseRateUpdated]) ∧
    recWithPr.pr ≠ recOverwritten.pr :=
  ⟨rfl, rfl, by decide⟩

/-- C4 (amended): every non-marker buffer of length ≥ 3 arriving while the
session is non-empty (re)writes the last record's `pr` field to the
buffer's first three masked bytes, overwriting any previously attached
value; attachment is not at-most-once. -/
theorem C4_amended (ms : List Measurement) (data : List Nat) (a : Measurement)
    (h1 : data.getD 0 0 ≠ 0xE9) (h2 : 3 ≤ data.length)
    (ha : ms.get? (ms.length - 1) = some a) :
    handle_notification ms data =
      .ok (setLastPr ms (pr_values data), [.pulseRateUpdated]) ∧
    (setLastPr ms (pr_values data)).get? (ms.length - 1) =
      some { a with pr := some (pr_values data) } := by
  refine ⟨?_, setLastPr_get_last ms (pr_values data) a ha⟩
  cases data with
  | nil => simp at h2
  | cons d0 rest =>
    have hms : ms ≠ [] := by
      intro hnil
      rw [hnil] at ha
      simp at ha
    have h1' : d0 ≠ 0xE9 := by
      simpa using h1
    rw [handle_notification_cons, if_neg h1', if_pos (And.intro hms h2)]

/-- C4 witness: the amended overwrite theorem at the concrete session
`[mPreset]` (whose record already carries `pr = {1,2,3}`) and the buffer
`[0x10,0x11,0x12]`. -/
theorem C4_amended_witness :
    handle_notification [mPreset] [0x10, 0x11, 0x12] =
      .ok (setLastPr [mPreset] (pr_values [0x10, 0x11, 0x12]), [.pulseRateUpdated]) ∧
    (setLastPr [mPreset] (pr_values [0x10, 0x11, 0x12])).get?
        (([mPreset] : List Measurement).length - 1) =
      some { mPreset with pr := some (pr_values [0x10, 0x11, 0x12]) } :=
  C4_amended [mPreset] [0x10, 0x11, 0x12] mPreset (by decide) (by decide) rfl

/-- C5, counterexample: for the stream `[validBuf, shortBuffer(length 2)]`
the record indeed stays without `pr`, but no event at all is emitted for
the short buffer — in particular no `IncompletePulseRate` warning: the
short buffer fails the `len(data) >= 3` guard at line 62 and falls through
the `if`/`elif` chain silently (the warning at line 72 sits in an
unreachable `except` arm). -/
theorem C5_counterexample :
    processStream [] [validBuf, [0x50, 0x40]] = .ok ([recValid], []) ∧
    Event.prIncomplete ∉ ([] : List Event) :=
  ⟨rfl, by simp⟩

/-- C5 (amended): for the stream `[validBuf, shortBuffer(length 2)]` the
appended record remains without `pr` and the correlator still awaits an
attachment — a later pulse-rate buffer `[0x50,0x40,0x46]` still attaches
`{80,64,70}` to it — but the short buffer is discarded silently, with no
`IncompletePulseRate` warning emitted. -/
theorem C5_amended :
    processStream [] [validBuf, [0x50, 0x40]] = .ok ([recValid], []) ∧
    recValid.pr = none ∧
    processStream [] [validBuf, [0x50, 0x40], [0x50, 0x40, 0x46]] =
      .ok ([recWithPr], [.pulseRateUpdated]) ∧
    recWithPr.pr = some { max := 80, min := 64, avg := 70 } :=
  ⟨rfl, rfl, rfl, rfl⟩

/-- C6: decoding the §8 synthetic valid buffer yields sequence id 1,
timestamp 2025-03-10 12:30:45, SpO2 `{max:98, min:90, avg:94}` and no
pulse rate, each field the masked byte of the §4.2 extraction table. -/
theorem C6_roundtrip :
    parse validBuf = some recValid ∧
    recValid.packet = 1 ∧
    recValid.end_time =
      { year := 2025, month := 3, day := 10, hour := 12, minute := 30, second := 45 } ∧
    recValid.spo2 = { max := 98, min := 90, avg := 94 } ∧
    recValid.pr = none :=
  ⟨rfl, rfl, rfl, rfl, rfl⟩

/-- C7: processing the stream `[validBuf, [0x50,0x40,0x46]]` from the
empty session leaves exactly one record, whose pulse rate is
`{max:80, min:64, avg:70}`. -/
theorem C7_attach_stream :
    processStream [] [validBuf, [0x50, 0x40, 0x46]] =
      .ok ([recWithPr], [.pulseRateUpdated]) ∧
    recWithPr.pr = some { max := 80, min := 64, avg := 70 } :=
  ⟨rfl, rfl⟩

/-- C8: processing `[validBuf, validBuf]` from the empty session succeeds
(the second marker packet is handled as a new measurement, not an error)
and leaves exactly two records, the first of which has no pulse rate. -/
theorem C8_two_markers :
    processStream [] [validBuf, validBuf] = .ok ([recValid, recValid], []) ∧
    recValid.pr = none :=
  ⟨rfl, rfl⟩

/-- C9: the Selector on the empty session reports the defined
"No measurements received" outcome, not an error. -/
theorem C9_empty_session :
    main_report [] = .ok .noMeasurements := rfl

/-- C3: the Validator classifies a buffer as valid exactly when its length
is ≥ 23 and its first byte is the marker `0xE9`; and processing any
invalid buffer (too short, or wrong first byte) never appends a record to
the session, whatever the session state. -/
theorem C3_validator (data : List Nat) (ms ms' : List Measurement) (evs : List Event) :
    ((parse data).isSome ↔ 23 ≤ data.length ∧ data.getD 0 0 = 0xE9) ∧
    ((data.length < 23 ∨ data.getD 0 0 ≠ 0xE9) →
      handle_notification ms data = .ok (ms', evs) → ms'.length = ms.length) := by
  constructor
  · unfold parse MIN_PACKET_LENGTH
    by_cases hc : data.length < 23 ∨ data.getD 0 0 ≠ 0xE9
    · rw [if_pos hc]
      simp only [Option.isSome_none, Bool.false_eq_true, false_iff]
      rintro ⟨hl, hm⟩
      rcases hc with hc | hc
      · omega
      · exact hc hm
    · rw [if_neg hc]
      push_neg at hc
      simp only [Option.isSome_some, true_iff]
      exact hc
  · intro hinv heq
    cases data with
    | nil => simp [handle_notification] at heq
    | cons d0 rest =>
      rw [handle_notification_cons] at heq
      by_cases h1 : d0 = 0xE9
      · rw [if_pos h1] at heq
        have hcond :
            (d0 :: rest).length < MIN_PACKET_LENGTH ∨ (d0 :: rest).getD 0 0 ≠ 0xE9 := by
          rcases hinv with hl | hm
          · exact Or.inl hl
          · exact absurd h1 (by simpa using hm)
        have hp : parse (d0 :: rest) = none := by
          unfold parse
          rw [if_pos hcond]
        rw [hp] at heq
        cases heq
        rfl
      · rw [if_neg h1] at heq
        by_cases h2 : ms ≠ [] ∧ 3 ≤ (d0 :: rest).length
        · rw [if_pos h2] at heq
          cases heq
          exact setLastPr_length ms _
        · rw [if_neg h2] at heq
          cases heq
          rfl

/-- C3 witness: the classification and no-append parts at the concrete
invalid buffer `[0x50, 0x40, 0x46]` (wrong first byte, length 3) and the
empty session, for which processing returns the session unchanged. -/
theorem C3_validator_witness :
    ((parse [0x50, 0x40, 0x46]).isSome ↔
      23 ≤ ([0x50, 0x40, 0x46] : List Nat).length ∧
        ([0x50, 0x40, 0x46] : List Nat).getD 0 0 = 0xE9) ∧
    ([] : List Measurement).length = ([] : List Measurement).length :=
  ⟨(C3_validator [0x50, 0x40, 0x46] [] [] []).1,
   (C3_validator [0x50, 0x40, 0x46] [] [] []).2 (Or.inl (by decide)) rfl⟩

/-- C10: frame property of notification processing.  Whenever
`handle_notification` completes, the session length grows by at most one,
every record strictly before the last is unchanged in place, and the
prefix of surviving records agrees with the old session once the optional
`pr` field is erased — i.e. only the most recent record's pulse rate can
change, and records are only appended, never removed or reordered. -/
theorem C10_frame (ms : List Measurement) (data : List Nat) (ms' : List Measurement)
    (evs : List Event) (h : handle_notification ms data = .ok (ms', evs)) :
    ms.length ≤ ms'.length ∧ ms'.length ≤ ms.length + 1 ∧
    ms'.take (ms.length - 1) = ms.take (ms.length - 1) ∧
    (ms'.take ms.length).map erasePr = ms.map erasePr := by
  cases data with
  | nil => simp [handle_notification] at h
  | cons d0 rest =>
    rw [handle_notification_cons] at h
    by_cases h1 : d0 = 0xE9
    · rw [if_pos h1] at h
      cases hp : parse (d0 :: rest) with
      | some m =>
        rw [hp] at h
        cases h
        refine ⟨?_, ?_, ?_, ?_⟩
        · simp only [List.length_append, List.length_cons, List.length_nil]
          omega
        · simp only [List.length_append, List.length_cons, List.length_nil]
          omega
        · exact List.take_append_of_le_length (Nat.sub_le _ _)
        · rw [List.take_left]
      | none =>
        rw [hp] at h
        cases h
        exact ⟨le_refl _, by omega, rfl, by rw [List.take_length]⟩
    · rw [if_neg h1] at h
      by_cases h2 : ms ≠ [] ∧ 3 ≤ (d0 :: rest).length
      · rw [if_pos h2] at h
        cases h
        refine ⟨?_, ?_, ?_, ?_⟩
        · rw [setLastPr_length]
        · rw [setLastPr_length]; omega
        · exact setLastPr_take_pred ms _
        · rw [List.take_of_length_le (le_of_eq (setLastPr_length ms _)),
            setLastPr_map_erasePr]
      · rw [if_neg h2] at h
        cases h
        exact ⟨le_refl _, by omega, rfl, by rw [List.take_length]⟩

/-- C10 witness: the frame theorem at the concrete session `[recValid]`
and pulse-rate buffer `[0x50,0x40,0x46]`, whose processing rewrites only
the last (and only) record's pulse rate. -/
theorem C10_frame_witness :
    handle_notification [recValid] [0x50, 0x40, 0x46] =
      .ok ([recWithPr], [.pulseRateUpdated]) ∧
    (([recValid] : List Measurement).length ≤ ([recWithPr] : List Measurement).length ∧
     ([recWithPr] : List Measurement).length ≤ ([recValid] : List Measurement).length + 1 ∧
     ([recWithPr] : List Measurement).take (([recValid] : List Measurement).length - 1) =
       ([recValid] : List Measurement).take (([recValid] : List Measurement).length - 1) ∧
     (([recWithPr] : List Measurement).take
         ([recValid] : List Measurement).length).map erasePr =
       ([recValid] : List Measurement).map erasePr) :=
  ⟨rfl, C10_frame [recValid] [0x50, 0x40, 0x46] [recWithPr] [.pulseRateUpdated] rfl⟩

end PO60
